import Mathlib

/-!
Verification of the mirror-chatbot repository (src/app3.py, src/app4.py).

The two Python files are near-duplicate Streamlit scripts. We give a shallow
embedding of the parts the specification talks about:

* the raw Gemini response object (candidates / content / parts / text,
  finish_reason, prompt_feedback.block_reason) together with the SDK
  convenience accessor `resp.text` used only by app3.py;
* app4.py's `parse_gemini_response` and `ask_gemini` (lines 164-227);
* app3.py's `extract_text` and `ask_gemini` (lines 163-223);
* the shared `mirror_response` lookup transform (app3 140-157, app4 141-158);
* the user-input handler, monologue block and monologue flag buttons
  (app3 130-260, app4 131-264), modelled as one Streamlit re-run step.

Python-builtin behaviour is modelled explicitly: `str.strip` as `pyStrip`
(dropping whitespace characters from both ends; we use `Char.isWhitespace`,
an ASCII subset of Python's Unicode notion — all counterexamples use ' '),
`"\n".join` as `joinNl`, `s.strip().split()[0]` as `subjectOf` (which is
`none` exactly when Python would raise IndexError), and truthiness of an
optional string as `optTruthy`.

Attribute access `getattr(x, f, default)` is total in Python for plain data
attributes, so the `except Exception` guard around the traversal loops in
both files can never fire for the tree-shaped data modelled here; the guards
are noted where the functions are defined.
-/

namespace MirrorChat

/-- Behaviour of the SDK convenience accessor `resp.text` (used only by
app3.py): the attribute may be absent, may raise ValueError (the documented
failure mode the source guards against, src/app3.py line 175), or may return
a string. -/
inductive TextAttr
  | absent
  | raisesValueError
  | returns (t : String)
  deriving DecidableEq

/-- One content part: `getattr(p, "text", None)`. -/
structure RawPart where
  text : Option String
  deriving DecidableEq

/-- Candidate content: `getattr(content, "parts", [])`, which may itself be
`None` in the SDK object (the sources write `parts or []`). -/
structure RawContent where
  parts : Option (List RawPart)
  deriving DecidableEq

/-- One candidate: `getattr(cand, "finish_reason", None)` (an enum integer;
2 is MAX_TOKENS) and `getattr(cand, "content", None)`. -/
structure RawCandidate where
  finish_reason : Option Nat
  content : Option RawContent
  deriving DecidableEq

/-- Prompt feedback: `getattr(pf, "block_reason", None)`, rendered as a
string by the f-strings in both files. -/
structure RawPromptFeedback where
  block_reason : Option String
  deriving DecidableEq

/-- The raw model response object handed to the extractors. -/
structure RawResponse where
  textAttr : TextAttr
  candidates : Option (List RawCandidate)
  prompt_feedback : Option RawPromptFeedback
  deriving DecidableEq

/-- Python truthiness of an optional string (`if t:` / `if br:`). -/
def optTruthy : Option String → Bool
  | none => false
  | some s => s ≠ ""

/-- Model of Python `str.strip()`: drop whitespace from both ends. -/
def pyStrip (s : String) : String :=
  ⟨((s.data.dropWhile Char.isWhitespace).reverse.dropWhile Char.isWhitespace).reverse⟩

/-- Model of Python `"\n".join(texts)`. -/
def joinNl : List String → String
  | [] => ""
  | [x] => x
  | x :: y :: rest => x ++ "\n" ++ joinNl (y :: rest)

/-- Model of `s.strip().split()[0]`: the first whitespace-delimited token,
or `none` when Python's `[0]` would raise IndexError (no token). -/
def subjectOf (s : String) : Option String :=
  let l := (pyStrip s).data.dropWhile Char.isWhitespace
  if l = [] then none
  else some ⟨l.takeWhile (fun c => !c.isWhitespace)⟩

/-- The string `s` contains a non-whitespace character. -/
def hasNonWs (s : String) : Bool :=
  s.data.any (fun c => !c.isWhitespace)

/-- `candidates` traversal base: `getattr(resp, "candidates", []) or []`. -/
def candList (r : RawResponse) : List RawCandidate :=
  r.candidates.getD []

/-- Parts of one candidate: `getattr(content, "parts", []) if content else []`
followed by `parts or []`. -/
def partsOf (c : RawCandidate) : List RawPart :=
  match c.content with
  | none => []
  | some ct => ct.parts.getD []

/-- Truthy texts of one candidate's parts, in part order: the inner loop
`for p in (parts or []): t = getattr(p, "text", None); if t: texts.append(t)`
shared by both source files. -/
def candTexts (c : RawCandidate) : List String :=
  (partsOf c).filterMap (fun p =>
    match p.text with
    | none => none
    | some t => if t = "" then none else some t)

/-- All truthy text fragments, candidate order then part order. -/
def collectTexts (r : RawResponse) : List String :=
  (candList r).flatMap candTexts

/-- Block reason: `getattr(pf, "block_reason", None) if pf else None`. -/
def blockReasonOf (r : RawResponse) : Option String :=
  match r.prompt_feedback with
  | none => none
  | some pf => pf.block_reason

/-- Shared blocked message of app3.py line 199 and app4.py line 218:
`f"⚠️ 응답이 안전 정책에 의해 차단되었습니다. (사유: {block})"`. -/
def blockedMsg (br : String) : String :=
  "⚠️ 응답이 안전 정책에 의해 차단되었습니다. (사유: " ++ br ++ ")"

/-- app4.py lines 220-223: the MAX_TOKENS advice message. -/
def maxTokensMsg : String :=
  "⚠️ 응답이 토큰 한도(MAX_TOKENS)에 먼저 도달해 비어 있었습니다.\n→ 제안: 프롬프트를 조금 줄이거나, \x27max_new_tokens\x27 슬라이더 값을 높여 다시 시도해 보세요."

/-- app4.py line 224: generic retry message. -/
def emptyMsg4 : String :=
  "⚠️ 응답을 생성하지 못했습니다. 프롬프트를 조금 바꿔 다시 시도해 주세요."

/-- app3.py line 220: generic retry message (no warning sign in app3). -/
def emptyMsg3 : String :=
  "응답을 생성하지 못했습니다. 프롬프트를 조금 바꿔 다시 시도해 주세요."

/-- Shared transport-failure message, app3.py line 223 and app4.py line 227:
`f"⚠️ Gemini 호출 중 오류가 발생했습니다: {e}"`. -/
def transportMsg (e : String) : String :=
  "⚠️ Gemini 호출 중 오류가 발생했습니다: " ++ e

/-- The `mirror_hierarchy` lookup table (identical in app3.py lines 140-146
and app4.py lines 141-147). Each dict node carries only the key `결론`, so the
nested `node.get(\x27결론\x27, \x27\x27)` access is flattened to the phrase. -/
def mirror_hierarchy (subject : String) : Option String :=
  if subject = "물" then some "평화와 생명의 문"
  else if subject = "불" then some "빛과 평화의 안내자"
  else if subject = "바람" then some "자유와 흐름의 숨결"
  else if subject = "흙" then some "품음과 뿌리의 안식"
  else if subject = "혼잣말" then some "내면을 비추는 거울 같은 속삭임"
  else none

/-- The mirror transform `mirror_response(subject, original)` (identical in
both files, app3.py lines 148-157 and app4.py lines 149-158). `dict.get`
with default `\x7b\x7d` followed by `if not node` is the `none` branch. -/
def mirror_response (subject original : String) : String :=
  match mirror_hierarchy subject with
  | none =>
      "거울상: (주제 \x27" ++ subject ++ "\x27 정의 없음)\n\n" ++ original
  | some concl =>
      "거울상 (" ++ subject ++ "):\n- 원문: " ++ pyStrip original ++
        "\n- 대조: " ++ subject ++ "은/는 스스로 주장하지 않지만 모든 것을 담아낸다.\n- 종합: " ++ concl

/-- Transcript roles: the tuples `("user", …)` / `("assistant", …)` that are
appended to `st.session_state["messages"]`. -/
inductive Role
  | user
  | assistant
  deriving DecidableEq

/-- One transcript entry. -/
abbrev Entry := Role × String

/-- The spec's extraction-outcome classification (§3 of the design);
the code realises it through the branch cascade of app4.py's `ask_gemini`. -/
inductive ExtractionOutcome
  | Text (content : String)
  | Blocked (reason : String)
  | Truncated
  | Empty
  deriving DecidableEq

/-- Debug dict built by app4.py lines 186-190. -/
structure DebugRec where
  finish_reasons : List (Option Nat)
  block_reason : Option String
  num_parts_text : Nat
  deriving DecidableEq

/-- Value of `st.session_state["last_debug"]` after a call of app4.py's
`ask_gemini`: the parse debug dict, or the dict `\x7b"exception": str(e)\x7d`
written by the transport-failure handler (app4.py line 226). -/
inductive LastDebug
  | parsed (d : DebugRec)
  | exceptionInfo (e : String)
  deriving DecidableEq

namespace App4

/-- The candidate loop of `parse_gemini_response` (app4.py lines 171-179):
one pass appending `finish_reason` per candidate and every truthy part text,
in source order. -/
def parseLoop : List RawCandidate → List String × List (Option Nat)
  | [] => ([], [])
  | c :: cs =>
      let rest := parseLoop cs
      (candTexts c ++ rest.1, c.finish_reason :: rest.2)

/-- app4.py lines 164-191, `parse_gemini_response`. The guarded traversal
cannot fail for the tree-shaped data modelled here (all accesses are
`getattr` with defaults), so the `except` branch returning an `error` dict
is unreachable in the model. -/
def parse_gemini_response (r : RawResponse) : String × DebugRec :=
  let tf := parseLoop (candList r)
  (pyStrip (joinNl tf.1),
   { finish_reasons := tf.2
     block_reason := blockReasonOf r
     num_parts_text := tf.1.length })

/-- app4.py lines 197-227, `ask_gemini`. The gateway call is modelled by its
result: `Except.error e` is a raised transport exception with message `e`.
Returns the display string together with the value stored into
`st.session_state["last_debug"]` by this call. -/
def ask_gemini (gen : Except String RawResponse) : String × LastDebug :=
  match gen with
  | .error e => (transportMsg e, .exceptionInfo e)
  | .ok resp =>
      let td := parse_gemini_response resp
      if td.1 ≠ "" then (td.1, .parsed td.2)
      else if optTruthy td.2.block_reason then
        (blockedMsg (td.2.block_reason.getD ""), .parsed td.2)
      else if td.2.finish_reasons.any (fun fr => fr == some 2) then
        (maxTokensMsg, .parsed td.2)
      else (emptyMsg4, .parsed td.2)

/-- The outcome classification implicit in the branch cascade of app4.py's
`ask_gemini` (lines 211-224): text wins, then block reason, then the
MAX_TOKENS sentinel, else the degenerate empty outcome. -/
def outcome (r : RawResponse) : ExtractionOutcome :=
  let td := parse_gemini_response r
  if td.1 ≠ "" then .Text td.1
  else if optTruthy td.2.block_reason then .Blocked (td.2.block_reason.getD "")
  else if td.2.finish_reasons.any (fun fr => fr == some 2) then .Truncated
  else .Empty

end App4

namespace App3

/-- Steps 2-3 of app3.py's `extract_text` (lines 178-201): manual collection
from candidates/parts (the loop is the one shared with app4.py, including the
dead `except` guard), then the block-reason message, else the empty string. -/
def extractManual (resp : RawResponse) : String :=
  let texts := collectTexts resp
  if texts ≠ [] then pyStrip (joinNl texts)
  else if optTruthy (blockReasonOf resp) then
    blockedMsg ((blockReasonOf resp).getD "")
  else ""

/-- app3.py lines 163-201, `extract_text`. Step 1 consults the convenience
accessor `resp.text` when the attribute exists, swallowing only its
ValueError failure mode; a truthy result short-circuits as `t.strip()`. -/
def extract_text (resp : RawResponse) : String :=
  match resp.textAttr with
  | .returns t => if t ≠ "" then pyStrip t else extractManual resp
  | _ => extractManual resp

/-- app3.py lines 207-223, `ask_gemini`: empty extraction is replaced by the
generic retry message; a raised transport error becomes `transportMsg`. -/
def ask_gemini (gen : Except String RawResponse) : String :=
  match gen with
  | .error e => transportMsg e
  | .ok resp =>
      let text := extract_text resp
      if text ≠ "" then text else emptyMsg3

end App3

/-- Well-formedness of the SDK convenience accessor relative to the
structural tree: when `resp.text` returns a string at all, it returns the
text the parts carry (the SDK derives the property from the parts). Used
only as a hypothesis tying app3.py's step 1 to the structural walk. -/
def accessorConsistent (r : RawResponse) : Prop :=
  ∀ t, r.textAttr = TextAttr.returns t → t = joinNl (collectTexts r)

namespace App4

/-- The user-input handler, app4.py lines 233-246, as the list of entries it
appends to `st.session_state["messages"]` in order. `gen` is the result of
the `ask_gemini` gateway call for this input. The result is `none` when the
handler raises: with mirror mode on, `user_input.strip().split()[0]` raises
IndexError for a truthy but whitespace-only input, aborting the re-run
before any append. An empty input fails `if user_input:` and appends
nothing. -/
def submit (input : String) (mirror : Bool) (gen : Except String RawResponse) :
    Option (List Entry) :=
  if input ≠ "" then
    let answer := (ask_gemini gen).1
    if mirror then
      match subjectOf input with
      | none => none
      | some subj =>
          some [(Role.user, input), (Role.assistant, mirror_response subj answer)]
    else some [(Role.user, input), (Role.assistant, answer)]
  else some []

/-- The monologue block's answer (app4.py lines 256-258): the fixed-prompt
gateway result through `ask_gemini`, mirrored with the fixed subject
`혼잣말` when mirror mode is on. -/
def tickAnswer (mirror : Bool) (genMono : Except String RawResponse) : String :=
  let answer := (ask_gemini genMono).1
  if mirror then mirror_response "혼잣말" answer else answer

/-- The single assistant entry appended by the monologue block
(app4.py line 260). -/
def tickEntry (mirror : Bool) (genMono : Except String RawResponse) : Entry :=
  (Role.assistant, tickAnswer mirror genMono)

/-- Session state touched by one re-run: the transcript and the monologue
flag (app4.py lines 109-112). -/
structure AppState where
  messages : List Entry
  monologue_running : Bool
  deriving DecidableEq

/-- The sidebar buttons, app4.py lines 131-135: the start button sets the
flag, then the stop button clears it. -/
def updateFlag (flag startP stopP : Bool) : Bool :=
  let f1 := if startP then true else flag
  if stopP then false else f1

/-- One full Streamlit re-run over the modelled script sections, in source
order: buttons (lines 131-135), user-input handler (233-246), monologue
block (252-264). The Bool is false when the run aborted with an uncaught
exception (the mirror-subject IndexError); session-state mutations made
before the raise — here only the flag — persist, and the monologue block is
skipped. -/
def full_step (st : AppState) (startP stopP : Bool) (input : String)
    (mirror : Bool) (gen genMono : Except String RawResponse) :
    AppState × Bool :=
  let flag := updateFlag st.monologue_running startP stopP
  match submit input mirror gen with
  | none => ({ messages := st.messages, monologue_running := flag }, false)
  | some es =>
      let msgs := st.messages ++ es
      if flag then
        ({ messages := msgs ++ [tickEntry mirror genMono], monologue_running := flag }, true)
      else ({ messages := msgs, monologue_running := flag }, true)

end App4

namespace App3

/-- The user-input handler, app3.py lines 229-242 (same shape as app4's,
with app3's `ask_gemini`). -/
def submit (input : String) (mirror : Bool) (gen : Except String RawResponse) :
    Option (List Entry) :=
  if input ≠ "" then
    let answer := ask_gemini gen
    if mirror then
      match subjectOf input with
      | none => none
      | some subj =>
          some [(Role.user, input), (Role.assistant, mirror_response subj answer)]
    else some [(Role.user, input), (Role.assistant, answer)]
  else some []

end App3

/-- Sample response: one candidate, natural stop, one part with text. -/
def rHello : RawResponse :=
  { textAttr := .absent
    candidates := some [{ finish_reason := some 1
                          content := some { parts := some [{ text := some "안녕하세요" }] } }]
    prompt_feedback := none }

/-- Sample response: one candidate whose only part carries the truthy but
whitespace-only text " ". -/
def rWs : RawResponse :=
  { textAttr := .absent
    candidates := some [{ finish_reason := some 1
                          content := some { parts := some [{ text := some " " }] } }]
    prompt_feedback := none }

/-- Sample response of the spec's blocked scenario: zero candidates,
`PromptFeedback.BlockReason = "SAFETY"`. -/
def rSafety : RawResponse :=
  { textAttr := .raisesValueError
    candidates := some []
    prompt_feedback := some { block_reason := some "SAFETY" } }

/-- Sample response of the spec's truncation scenario: one candidate with
finish reason 2 (MAX_TOKENS) and one part whose text field is empty. -/
def rTrunc : RawResponse :=
  { textAttr := .raisesValueError
    candidates := some [{ finish_reason := some 2
                          content := some { parts := some [{ text := some "" }] } }]
    prompt_feedback := none }

/-- Sample response differing from `rHello` only in the convenience
accessor, which here returns a string unrelated to the parts. -/
def rShortcut : RawResponse :=
  { rHello with textAttr := .returns "지름길" }

/-- `isPrefL p l` decides whether `p` is an initial segment of `l`. -/
def isPrefL : List Char → List Char → Bool
  | [], _ => true
  | _ :: _, [] => false
  | a :: pa, b :: lb => a == b && isPrefL pa lb

/-- `hasSub p l` decides whether `p` occurs contiguously inside `l`. -/
def hasSub (p : List Char) : List Char → Bool
  | [] => isPrefL p []
  | c :: l => isPrefL p (c :: l) || hasSub p l

/-- Executable substring test on strings. -/
def strContains (s pat : String) : Bool :=
  hasSub pat.data s.data

lemma str_eq_empty_iff (s : String) : s = "" ↔ s.data = [] := by
  rw [String.ext_iff]

lemma append_ne_empty_left (a b : String) (h : a ≠ "") : a ++ b ≠ "" := by
  rw [Ne, str_eq_empty_iff, String.data_append]
  intro hc
  apply h
  rw [str_eq_empty_iff]
  exact (List.append_eq_nil.mp hc).1

lemma isPrefL_append_self (p rest : List Char) : isPrefL p (p ++ rest) = true := by
  induction p with
  | nil => rfl
  | cons a pa ih => simp [isPrefL, ih]

lemma hasSub_of_isPrefL (p l : List Char) (h : isPrefL p l = true) :
    hasSub p l = true := by
  cases l with
  | nil => exact h
  | cons c cl => simp [hasSub, h]

lemma hasSub_append_left (p x l : List Char) (h : hasSub p l = true) :
    hasSub p (x ++ l) = true := by
  induction x with
  | nil => exact h
  | cons c cs ih =>
      simp only [List.cons_append, hasSub, Bool.or_eq_true]
      exact Or.inr ih

lemma strContains_middle (a p b : String) : strContains (a ++ p ++ b) p = true := by
  unfold strContains
  rw [String.data_append, String.data_append, List.append_assoc]
  exact hasSub_append_left _ _ _
    (hasSub_of_isPrefL _ _ (isPrefL_append_self p.data b.data))

lemma any_nw_dropWhile (l : List Char)
    (h : l.any (fun c => !c.isWhitespace) = true) :
    (l.dropWhile Char.isWhitespace).any (fun c => !c.isWhitespace) = true := by
  induction l with
  | nil => simp at h
  | cons c cs ih =>
      rw [List.dropWhile_cons]
      by_cases hw : c.isWhitespace
      · simp only [hw, if_true]
        apply ih
        simpa [hw] using h
      · rw [if_neg hw]
        exact h

lemma any_ne_nil (p : Char → Bool) (l : List Char) (h : l.any p = true) :
    l ≠ [] := by
  intro hc
  subst hc
  simp at h

lemma hasNonWs_pyStrip (s : String) (h : hasNonWs s = true) : pyStrip s ≠ "" := by
  have h1 := any_nw_dropWhile s.data (by simpa [hasNonWs] using h)
  have h2 : ((s.data.dropWhile Char.isWhitespace).reverse).any
      (fun c => !c.isWhitespace) = true := by
    rw [List.any_reverse]
    exact h1
  have h3 := any_nw_dropWhile _ h2
  have h4 := any_ne_nil _ _ h3
  rw [Ne, str_eq_empty_iff]
  simpa [pyStrip, List.reverse_eq_nil_iff] using h4

lemma hasNonWs_append (a b : String) :
    hasNonWs (a ++ b) = (hasNonWs a || hasNonWs b) := by
  simp [hasNonWs, String.data_append]

lemma ne_empty_of_hasNonWs (t : String) (h : hasNonWs t = true) : t ≠ "" := by
  rw [Ne, str_eq_empty_iff]
  intro hc
  rw [hasNonWs, hc] at h
  simp at h

lemma hasNonWs_joinNl (t : String) (xs : List String) (ht : t ∈ xs)
    (h : hasNonWs t = true) : hasNonWs (joinNl xs) = true := by
  induction xs with
  | nil => cases ht
  | cons x rest ih =>
      cases rest with
      | nil =>
          have hx : t = x := by simpa using ht
          rw [joinNl]
          exact hx ▸ h
      | cons y ys =>
          rw [joinNl, hasNonWs_append, hasNonWs_append]
          rcases (by simpa using ht : t = x ∨ t ∈ y :: ys) with h1 | h1
          · subst h1
            simp [h]
          · simp [ih h1]

lemma parseLoop_fst (cs : List RawCandidate) :
    (App4.parseLoop cs).1 = cs.flatMap candTexts := by
  induction cs with
  | nil => rfl
  | cons c cl ih => simp [App4.parseLoop, ih]

lemma parseLoop_snd (cs : List RawCandidate) :
    (App4.parseLoop cs).2 = cs.map (fun c => c.finish_reason) := by
  induction cs with
  | nil => rfl
  | cons c cl ih => simp [App4.parseLoop, ih]

lemma parse_fst (r : RawResponse) :
    (App4.parse_gemini_response r).1 = pyStrip (joinNl (collectTexts r)) := by
  rw [App4.parse_gemini_response]
  dsimp only
  rw [parseLoop_fst]
  rfl

lemma parse_snd (r : RawResponse) :
    (App4.parse_gemini_response r).2 =
      { finish_reasons := (candList r).map (fun c => c.finish_reason)
        block_reason := blockReasonOf r
        num_parts_text := (collectTexts r).length } := by
  rw [App4.parse_gemini_response]
  dsimp only
  rw [parseLoop_fst, parseLoop_snd]
  rfl

lemma blockedMsg_ne (br : String) : blockedMsg br ≠ "" := by
  unfold blockedMsg
  exact append_ne_empty_left _ _ (append_ne_empty_left _ _ (by decide))

lemma maxTokensMsg_ne : maxTokensMsg ≠ "" := by decide

lemma emptyMsg4_ne : emptyMsg4 ≠ "" := by decide

lemma emptyMsg3_ne : emptyMsg3 ≠ "" := by decide

lemma transportMsg_ne (e : String) : transportMsg e ≠ "" := by
  unfold transportMsg
  exact append_ne_empty_left _ _ (by decide)

lemma mirror_response_ne (subject original : String) :
    mirror_response subject original ≠ "" := by
  unfold mirror_response
  cases mirror_hierarchy subject with
  | none =>
      dsimp only
      repeat apply append_ne_empty_left
      decide
  | some concl =>
      dsimp only
      repeat apply append_ne_empty_left
      decide

lemma ask4_ne (gen : Except String RawResponse) :
    (App4.ask_gemini gen).1 ≠ "" := by
  cases gen with
  | error e =>
      exact transportMsg_ne e
  | ok r =>
      simp only [App4.ask_gemini]
      split
      · next h => exact h
      · split
        · exact blockedMsg_ne _
        · split
          · exact maxTokensMsg_ne
          · exact emptyMsg4_ne

lemma ask3_ne (gen : Except String RawResponse) :
    App3.ask_gemini gen ≠ "" := by
  cases gen with
  | error e => exact transportMsg_ne e
  | ok r =>
      simp only [App3.ask_gemini]
      split
      · next h => exact h
      · exact emptyMsg3_ne

lemma str_append_assoc (a b c : String) : a ++ b ++ c = a ++ (b ++ c) := by
  rw [String.ext_iff]
  simp [String.data_append, List.append_assoc]

/-- C10: for every gateway behaviour (returned raw response or raised
transport error), both variants' `ask_gemini` return a non-empty display
string, and the mirror transform never turns a string into the empty string,
so an assistant transcript entry's text is never empty. -/
theorem C10_ask_gemini_nonempty (gen : Except String RawResponse) (s t : String) :
    (App4.ask_gemini gen).1 ≠ "" ∧ App3.ask_gemini gen ≠ "" ∧
    mirror_response s t ≠ "" :=
  ⟨ask4_ne gen, ask3_ne gen, mirror_response_ne s t⟩

/-- C7: the metaphor transform is a pure function of (subject, text): for a
subject in the table the output contains the trimmed original text and ends
with the subject's fixed conclusion phrase (for `바람` the phrase is
`자유와 흐름의 숨결`), and for a subject not in the table the output is the
no-definition notice followed by the original text unmodified. Determinism
and idempotence on the table hold by construction: `mirror_response` is a
pure function of its two arguments and the static table. -/
theorem C7_mirror_transform (subject original : String) :
    (∀ concl, mirror_hierarchy subject = some concl →
      (∃ pre, mirror_response subject original = pre ++ concl) ∧
      (∃ pre suf, mirror_response subject original = pre ++ pyStrip original ++ suf)) ∧
    (mirror_hierarchy subject = none →
      mirror_response subject original =
        "거울상: (주제 \x27" ++ subject ++ "\x27 정의 없음)\n\n" ++ original) ∧
    mirror_hierarchy "바람" = some "자유와 흐름의 숨결" := by
  refine ⟨?_, ?_, rfl⟩
  · intro concl h
    constructor
    · exact ⟨"거울상 (" ++ subject ++ "):\n- 원문: " ++ pyStrip original ++
        "\n- 대조: " ++ subject ++ "은/는 스스로 주장하지 않지만 모든 것을 담아낸다.\n- 종합: ",
        by simp [mirror_response, h]⟩
    · refine ⟨"거울상 (" ++ subject ++ "):\n- 원문: ",
        "\n- 대조: " ++ subject ++ "은/는 스스로 주장하지 않지만 모든 것을 담아낸다.\n- 종합: " ++ concl,
        ?_⟩
      simp [mirror_response, h, str_append_assoc]
  · intro h
    simp [mirror_response, h]

/-- Witness for C7 at the spec's end-to-end scenario: `transform("바람",
"흐름")` ends with the mapped phrase and contains the original text. -/
theorem C7_mirror_transform_witness :
    (∃ pre, mirror_response "바람" "흐름" = pre ++ "자유와 흐름의 숨결") ∧
    (∃ pre suf, mirror_response "바람" "흐름" = pre ++ pyStrip "흐름" ++ suf) :=
  (C7_mirror_transform "바람" "흐름").1 "자유와 흐름의 숨결" (by decide)

/-- C2 (amended): app4's extractor depends only on the structural
candidates/parts tree — its output (and hence `ask_gemini`'s) is unchanged
under any behaviour of the convenience accessor — and app3's `extract_text`
swallows the accessor's ValueError failure mode, behaving as if the
attribute were absent. The traversal guards make both extractors total. -/
theorem C2_structural_extraction (r : RawResponse) (ta ta2 : TextAttr) :
    App4.parse_gemini_response { r with textAttr := ta } =
      App4.parse_gemini_response { r with textAttr := ta2 } ∧
    App4.ask_gemini (Except.ok { r with textAttr := ta }) =
      App4.ask_gemini (Except.ok { r with textAttr := ta2 }) ∧
    App3.extract_text { r with textAttr := TextAttr.raisesValueError } =
      App3.extract_text { r with textAttr := TextAttr.absent } :=
  ⟨rfl, rfl, rfl⟩

/-- Counterexample for C2 as stated: app3.py's `extract_text` does rely on
the shortcut accessor `resp.text` — two responses with identical
candidates and prompt feedback give different extractions when the accessor
answers differently, so extraction is not a function of the structural tree
alone. -/
theorem C2_counterexample :
    rHello.candidates = rShortcut.candidates ∧
    rHello.prompt_feedback = rShortcut.prompt_feedback ∧
    App3.extract_text rHello ≠ App3.extract_text rShortcut := by
  refine ⟨rfl, rfl, by decide⟩

/-- C8: every call of app4's extractor populates all three diagnostic
signals regardless of outcome — the finish-reason list has exactly one entry
per candidate (in order), the block reason is the traversed one, and the
part count is the number of text-bearing parts — and `ask_gemini` overwrites
`last_debug` with exactly this record on every call (with the exception dict
on transport failure). -/
theorem C8_diagnostic_record (r : RawResponse) (e : String) :
    (App4.parse_gemini_response r).2.finish_reasons =
      (candList r).map (fun c => c.finish_reason) ∧
    (App4.parse_gemini_response r).2.finish_reasons.length = (candList r).length ∧
    (App4.parse_gemini_response r).2.block_reason = blockReasonOf r ∧
    (App4.parse_gemini_response r).2.num_parts_text = (collectTexts r).length ∧
    (App4.ask_gemini (Except.ok r)).2 =
      LastDebug.parsed (App4.parse_gemini_response r).2 ∧
    (App4.ask_gemini (Except.error e)).2 = LastDebug.exceptionInfo e := by
  refine ⟨?_, ?_, ?_, ?_, ?_, rfl⟩
  · rw [parse_snd]
  · rw [parse_snd]
    simp
  · rw [parse_snd]
  · rw [parse_snd]
  · simp only [App4.ask_gemini]
    split
    · rfl
    · split
      · rfl
      · split <;> rfl

/-- C9: the monologue flag is a two-state machine driven only by the two
buttons — a re-run leaves it exactly at `updateFlag` of the pressed buttons,
start sets it, stop clears it, no button press leaves it unchanged, and
start followed by stop lands on Idle — and the flag never gates the
user-input handler: the entries the handler contributes are
`App4.submit input mirror gen`, a term not depending on the flag; the flag
only decides whether the monologue tick entry is appended afterwards. -/
theorem C9_monologue_flag (st : App4.AppState) (sp op : Bool) (input : String)
    (mirror : Bool) (gen gm : Except String RawResponse) :
    (App4.full_step st sp op input mirror gen gm).1.monologue_running =
      App4.updateFlag st.monologue_running sp op ∧
    (∀ f, App4.updateFlag f true false = true ∧
      App4.updateFlag f false true = false ∧
      App4.updateFlag f false false = f) ∧
    (App4.full_step (App4.full_step st true false input mirror gen gm).1
      false true input mirror gen gm).1.monologue_running = false ∧
    (App4.full_step st sp op input mirror gen gm).1.messages =
      st.messages ++ (App4.submit input mirror gen).getD [] ++
        (if (App4.submit input mirror gen).isSome &&
            App4.updateFlag st.monologue_running sp op
         then [App4.tickEntry mirror gm] else []) := by
  refine ⟨?_, ?_, ?_, ?_⟩
  · cases h : App4.submit input mirror gen with
    | none => simp [App4.full_step, h]
    | some es =>
        cases hf : App4.updateFlag st.monologue_running sp op <;>
          simp [App4.full_step, h, hf]
  · intro f
    exact ⟨rfl, rfl, rfl⟩
  · cases h : App4.submit input mirror gen <;>
      simp [App4.full_step, App4.updateFlag, h]
  · cases h : App4.submit input mirror gen with
    | none => simp [App4.full_step, h]
    | some es =>
        cases hf : App4.updateFlag st.monologue_running sp op <;>
          simp [App4.full_step, h, hf]

/-- C3 (amended): a submit with empty userText appends no entries at all
(the `if user_input:` handler is skipped), and a submit with non-empty
userText appends exactly two entries, user first then assistant — with the
assistant text mirrored through the first token of the input when mirror
mode is on and that token exists. Holds for both variants. -/
theorem C3_submit_appends (input : String) (mirror : Bool)
    (gen : Except String RawResponse) :
    (input = "" → App4.submit input mirror gen = some [] ∧
      App3.submit input mirror gen = some []) ∧
    (input ≠ "" → mirror = false →
      App4.submit input mirror gen =
        some [(Role.user, input), (Role.assistant, (App4.ask_gemini gen).1)] ∧
      App3.submit input mirror gen =
        some [(Role.user, input), (Role.assistant, App3.ask_gemini gen)]) ∧
    (∀ subj, input ≠ "" → mirror = true → subjectOf input = some subj →
      App4.submit input mirror gen =
        some [(Role.user, input),
              (Role.assistant, mirror_response subj ((App4.ask_gemini gen).1))] ∧
      App3.submit input mirror gen =
        some [(Role.user, input),
              (Role.assistant, mirror_response subj (App3.ask_gemini gen))]) := by
  refine ⟨?_, ?_, ?_⟩
  · intro h
    subst h
    exact ⟨rfl, rfl⟩
  · intro h hm
    subst hm
    exact ⟨by simp [App4.submit, h], by simp [App3.submit, h]⟩
  · intro subj h hm hs
    subst hm
    exact ⟨by simp [App4.submit, h, hs], by simp [App3.submit, h, hs]⟩

/-- Witness for C3: a non-empty submit appends the user entry then the
assistant entry, in both variants. -/
theorem C3_submit_appends_witness :
    App4.submit "안녕" false (Except.ok rHello) =
      some [(Role.user, "안녕"),
            (Role.assistant, (App4.ask_gemini (Except.ok rHello)).1)] ∧
    App3.submit "안녕" false (Except.ok rHello) =
      some [(Role.user, "안녕"),
            (Role.assistant, App3.ask_gemini (Except.ok rHello))] :=
  (C3_submit_appends "안녕" false (Except.ok rHello)).2.1 (by decide) rfl

/-- Counterexample for C3 as stated: a submit with empty userText appends
zero transcript entries, not one — the handler guard `if user_input:` skips
the gateway call entirely, so no assistant entry is produced. -/
theorem C3_counterexample :
    App4.submit "" false (Except.ok rHello) = some [] ∧
    App3.submit "" false (Except.ok rHello) = some [] :=
  ⟨rfl, rfl⟩

/-- C6 (amended): for every user input and gateway behaviour — provided the
mirror-subject lookup cannot fault (mirror off, or the input has a
non-whitespace token) — the pipeline completes: it appends either nothing
(empty input) or the complete user+assistant pair with a non-empty
assistant text; a raised transport error is converted into the fallback
message `transportMsg` instead of propagating; and the monologue tick
always contributes exactly one assistant entry with non-empty text. -/
theorem C6_local_recovery (input : String) (mirror : Bool)
    (gen : Except String RawResponse)
    (hguard : mirror = true → input ≠ "" → (subjectOf input).isSome = true) :
    (∃ es, App4.submit input mirror gen = some es ∧
      ((input = "" ∧ es = []) ∨
       (∃ a, a ≠ "" ∧ es = [(Role.user, input), (Role.assistant, a)]))) ∧
    (∃ es, App3.submit input mirror gen = some es ∧
      ((input = "" ∧ es = []) ∨
       (∃ a, a ≠ "" ∧ es = [(Role.user, input), (Role.assistant, a)]))) ∧
    (∀ e, gen = Except.error e → input ≠ "" → mirror = false →
      App4.submit input mirror gen =
        some [(Role.user, input), (Role.assistant, transportMsg e)] ∧
      App3.submit input mirror gen =
        some [(Role.user, input), (Role.assistant, transportMsg e)]) ∧
    (App4.tickEntry mirror gen).1 = Role.assistant ∧
    (App4.tickEntry mirror gen).2 ≠ "" := by
  refine ⟨?_, ?_, ?_, rfl, ?_⟩
  · by_cases h : input = ""
    · subst h
      exact ⟨[], rfl, Or.inl ⟨rfl, rfl⟩⟩
    · cases hm : mirror with
      | true =>
          obtain ⟨subj, hsubj⟩ := Option.isSome_iff_exists.mp (hguard hm h)
          refine ⟨[(Role.user, input),
              (Role.assistant, mirror_response subj ((App4.ask_gemini gen).1))],
            by simp [App4.submit, h, hsubj], Or.inr ?_⟩
          exact ⟨mirror_response subj ((App4.ask_gemini gen).1),
            mirror_response_ne _ _, rfl⟩
      | false =>
          refine ⟨[(Role.user, input), (Role.assistant, (App4.ask_gemini gen).1)],
            by simp [App4.submit, h], Or.inr ?_⟩
          exact ⟨(App4.ask_gemini gen).1, ask4_ne gen, rfl⟩
  · by_cases h : input = ""
    · subst h
      exact ⟨[], rfl, Or.inl ⟨rfl, rfl⟩⟩
    · cases hm : mirror with
      | true =>
          obtain ⟨subj, hsubj⟩ := Option.isSome_iff_exists.mp (hguard hm h)
          refine ⟨[(Role.user, input),
              (Role.assistant, mirror_response subj (App3.ask_gemini gen))],
            by simp [App3.submit, h, hsubj], Or.inr ?_⟩
          exact ⟨mirror_response subj (App3.ask_gemini gen),
            mirror_response_ne _ _, rfl⟩
      | false =>
          refine ⟨[(Role.user, input), (Role.assistant, App3.ask_gemini gen)],
            by simp [App3.submit, h], Or.inr ?_⟩
          exact ⟨App3.ask_gemini gen, ask3_ne gen, rfl⟩
  · intro e he h hm
    subst he
    subst hm
    exact ⟨by simp [App4.submit, h, App4.ask_gemini, transportMsg],
      by simp [App3.submit, h, App3.ask_gemini, transportMsg]⟩
  · cases hm : mirror with
    | true => exact mirror_response_ne "혼잣말" ((App4.ask_gemini gen).1)
    | false => exact ask4_ne gen

/-- Witness for C6: a transport failure on a non-empty input still appends
the complete user+assistant pair carrying the fallback message. -/
theorem C6_local_recovery_witness :
    App4.submit "안녕" false (Except.error "연결 실패") =
      some [(Role.user, "안녕"), (Role.assistant, transportMsg "연결 실패")] ∧
    App3.submit "안녕" false (Except.error "연결 실패") =
      some [(Role.user, "안녕"), (Role.assistant, transportMsg "연결 실패")] :=
  ((C6_local_recovery "안녕" false (Except.error "연결 실패")
    (by simp)).2.2.1) "연결 실패" rfl (by decide) rfl

/-- Counterexample for C6 as stated: with mirror mode on and the truthy but
whitespace-only input " ", `user_input.strip().split()[0]` raises
IndexError, so the pipeline propagates an exception instead of yielding a
display string — no entry is appended. Both variants fault. -/
theorem C6_counterexample :
    App4.submit " " true (Except.ok rHello) = none ∧
    App3.submit " " true (Except.ok rHello) = none :=
  ⟨rfl, rfl⟩

/-- C4: for a response with no collectable text parts and a present
non-empty block reason, extraction classifies Blocked with that reason —
regardless of any finish reasons, which are inspected only after the block
reason — and the display string contains the reason. In app3 the blocked
message is produced directly by `extract_text` (under accessor
well-formedness) and passed through by `ask_gemini`. -/
theorem C4_blocked_priority (r : RawResponse) (br : String)
    (hparts : collectTexts r = []) (hbr : blockReasonOf r = some br)
    (hne : br ≠ "") :
    App4.outcome r = ExtractionOutcome.Blocked br ∧
    (App4.ask_gemini (Except.ok r)).1 = blockedMsg br ∧
    strContains (blockedMsg br) br = true ∧
    (accessorConsistent r →
      App3.extract_text r = blockedMsg br ∧
      App3.ask_gemini (Except.ok r) = blockedMsg br) := by
  have htext : (App4.parse_gemini_response r).1 = "" := by
    rw [parse_fst, hparts]
    rfl
  have hbr2 : (App4.parse_gemini_response r).2.block_reason = some br := by
    rw [parse_snd]
    simpa using hbr
  have hopt : optTruthy (App4.parse_gemini_response r).2.block_reason = true := by
    rw [hbr2]
    simpa [optTruthy] using hne
  have hgetD : ((App4.parse_gemini_response r).2.block_reason).getD "" = br := by
    rw [hbr2]
    rfl
  refine ⟨?_, ?_, ?_, ?_⟩
  · simp [App4.outcome, htext, hopt, hgetD]
  · simp [App4.ask_gemini, htext, hopt, hgetD]
  · exact strContains_middle "⚠️ 응답이 안전 정책에 의해 차단되었습니다. (사유: " br ")"
  · intro hacc
    have hman : App3.extractManual r = blockedMsg br := by
      simp [App3.extractManual, hparts, hbr, optTruthy, hne]
    have hext : App3.extract_text r = blockedMsg br := by
      cases hta : r.textAttr with
      | returns t =>
          have ht : t = "" := by
            have h0 := hacc t hta
            rw [hparts] at h0
            exact h0
          simp [App3.extract_text, hta, ht, hman]
      | absent => simp [App3.extract_text, hta, hman]
      | raisesValueError => simp [App3.extract_text, hta, hman]
    exact ⟨hext, by simp [App3.ask_gemini, hext, blockedMsg_ne br]⟩

/-- Witness for C4 at the spec's end-to-end scenario: zero candidates and
block reason "SAFETY" yield the Blocked outcome and a display string
containing "SAFETY". -/
theorem C4_blocked_priority_witness :
    App4.outcome rSafety = ExtractionOutcome.Blocked "SAFETY" ∧
    (App4.ask_gemini (Except.ok rSafety)).1 = blockedMsg "SAFETY" ∧
    strContains (blockedMsg "SAFETY") "SAFETY" = true ∧
    (accessorConsistent rSafety →
      App3.extract_text rSafety = blockedMsg "SAFETY" ∧
      App3.ask_gemini (Except.ok rSafety) = blockedMsg "SAFETY") :=
  C4_blocked_priority rSafety "SAFETY" rfl rfl (by decide)

/-- C5 (amended): in app4 a response with no collectable text, no truthy
block reason and some candidate finishing with the MAX_TOKENS sentinel 2 is
classified Truncated, and the display is the fixed message suggesting to
raise the `max_new_tokens` limit (this holds even when the only part
carries an empty text field, as the witness shows); the app3 variant has no
truncation branch and shows the generic retry message instead. -/
theorem C5_truncated (r : RawResponse)
    (hparts : collectTexts r = [])
    (hblock : optTruthy (blockReasonOf r) = false)
    (hfr : ((candList r).map (fun c => c.finish_reason)).any
      (fun fr => fr == some 2) = true) :
    App4.outcome r = ExtractionOutcome.Truncated ∧
    (App4.ask_gemini (Except.ok r)).1 = maxTokensMsg ∧
    strContains maxTokensMsg "max_new_tokens" = true ∧
    strContains maxTokensMsg "높여" = true ∧
    (accessorConsistent r →
      App3.extract_text r = "" ∧ App3.ask_gemini (Except.ok r) = emptyMsg3) := by
  have htext : (App4.parse_gemini_response r).1 = "" := by
    rw [parse_fst, hparts]
    rfl
  have hbr2 : optTruthy (App4.parse_gemini_response r).2.block_reason = false := by
    rw [parse_snd]
    simpa using hblock
  have hfr2 : (App4.parse_gemini_response r).2.finish_reasons.any
      (fun fr => fr == some 2) = true := by
    rw [parse_snd]
    simpa using hfr
  refine ⟨?_, ?_, by decide, by decide, ?_⟩
  · simp [App4.outcome, htext, hbr2, hfr2]
  · simp [App4.ask_gemini, htext, hbr2, hfr2]
  · intro hacc
    have hman : App3.extractManual r = "" := by
      simp [App3.extractManual, hparts, hblock]
    have hext : App3.extract_text r = "" := by
      cases hta : r.textAttr with
      | returns t =>
          have ht : t = "" := by
            have h0 := hacc t hta
            rw [hparts] at h0
            exact h0
          simp [App3.extract_text, hta, ht, hman]
      | absent => simp [App3.extract_text, hta, hman]
      | raisesValueError => simp [App3.extract_text, hta, hman]
    exact ⟨hext, by simp [App3.ask_gemini, hext]⟩

/-- Witness for C5 at the spec's end-to-end scenario: one candidate with
finish reason 2 whose only part has an empty text field. -/
theorem C5_truncated_witness :
    App4.outcome rTrunc = ExtractionOutcome.Truncated ∧
    (App4.ask_gemini (Except.ok rTrunc)).1 = maxTokensMsg ∧
    strContains maxTokensMsg "max_new_tokens" = true ∧
    strContains maxTokensMsg "높여" = true ∧
    (accessorConsistent rTrunc →
      App3.extract_text rTrunc = "" ∧
      App3.ask_gemini (Except.ok rTrunc) = emptyMsg3) :=
  C5_truncated rTrunc rfl rfl (by decide)

/-- Counterexample for C5 as stated: on the truncated response the app3
variant (also named by the claim) displays the generic retry message, which
contains neither "max_new_tokens" nor the raise suggestion "높여"; app3 has
no Truncated classification at all. -/
theorem C5_counterexample :
    collectTexts rTrunc = [] ∧
    blockReasonOf rTrunc = none ∧
    (candList rTrunc).map (fun c => c.finish_reason) = [some 2] ∧
    App3.ask_gemini (Except.ok rTrunc) = emptyMsg3 ∧
    strContains emptyMsg3 "max_new_tokens" = false ∧
    strContains emptyMsg3 "높여" = false := by
  refine ⟨rfl, rfl, rfl, rfl, by decide, by decide⟩

/-- C1 (amended): whenever some collected text fragment contains a
non-whitespace character, app4's extraction yields exactly the collected
fragments (candidate order, then part order) joined with a newline and
trimmed, classified as the Text outcome and displayed verbatim — regardless
of any block reason or finish reason in the response; app3's `extract_text`
agrees whenever its convenience accessor is consistent with the parts. -/
theorem C1_text_priority (r : RawResponse) (t : String)
    (hmem : t ∈ collectTexts r) (hnw : hasNonWs t = true) :
    pyStrip (joinNl (collectTexts r)) ≠ "" ∧
    App4.outcome r = ExtractionOutcome.Text (pyStrip (joinNl (collectTexts r))) ∧
    (App4.ask_gemini (Except.ok r)).1 = pyStrip (joinNl (collectTexts r)) ∧
    (accessorConsistent r →
      App3.extract_text r = pyStrip (joinNl (collectTexts r)) ∧
      App3.ask_gemini (Except.ok r) = pyStrip (joinNl (collectTexts r))) := by
  have hjoin : hasNonWs (joinNl (collectTexts r)) = true :=
    hasNonWs_joinNl t _ hmem hnw
  have hne : pyStrip (joinNl (collectTexts r)) ≠ "" := hasNonWs_pyStrip _ hjoin
  have htext := parse_fst r
  refine ⟨hne, ?_, ?_, ?_⟩
  · simp [App4.outcome, htext, hne]
  · simp [App4.ask_gemini, htext, hne]
  · intro hacc
    have hjne : joinNl (collectTexts r) ≠ "" := ne_empty_of_hasNonWs _ hjoin
    have hlne : collectTexts r ≠ [] := by
      intro hc
      rw [hc] at hmem
      cases hmem
    have hman : App3.extractManual r = pyStrip (joinNl (collectTexts r)) := by
      simp [App3.extractManual, hlne]
    have hext : App3.extract_text r = pyStrip (joinNl (collectTexts r)) := by
      cases hta : r.textAttr with
      | returns t2 =>
          have ht2 := hacc t2 hta
          simp [App3.extract_text, hta, ht2, hjne]
      | absent => simp [App3.extract_text, hta, hman]
      | raisesValueError => simp [App3.extract_text, hta, hman]
    exact ⟨hext, by simp [App3.ask_gemini, hext, hne]⟩

/-- Witness for C1 on a response with one ordinary text part. -/
theorem C1_text_priority_witness :
    pyStrip (joinNl (collectTexts rHello)) ≠ "" ∧
    App4.outcome rHello =
      ExtractionOutcome.Text (pyStrip (joinNl (collectTexts rHello))) ∧
    (App4.ask_gemini (Except.ok rHello)).1 = pyStrip (joinNl (collectTexts rHello)) ∧
    (accessorConsistent rHello →
      App3.extract_text rHello = pyStrip (joinNl (collectTexts rHello)) ∧
      App3.ask_gemini (Except.ok rHello) = pyStrip (joinNl (collectTexts rHello))) :=
  C1_text_priority rHello "안녕하세요" (by decide) (by decide)

/-- Counterexample for C1 as stated: the response `rWs` has one non-empty
text part (the string " "), yet extraction does not return a Text outcome —
the joined-and-trimmed result is empty, so the cascade falls through to
Empty and the generic message. "Non-empty" must be strengthened to
"containing a non-whitespace character". -/
theorem C1_counterexample :
    collectTexts rWs = [" "] ∧
    App4.outcome rWs = ExtractionOutcome.Empty ∧
    (App4.ask_gemini (Except.ok rWs)).1 = emptyMsg4 := by
  refine ⟨rfl, by decide, by decide⟩

end MirrorChat
